import Mathlib

/-!
Verification development for the food-diary web application.

The repository is a small Go CRUD application: a SQLite-backed storage
layer (`repo` package: tables `Users` and `Meals`), a cookie-session
resolver (`server.GetUserId`), and HTTP handlers (`server` package).
This file shallowly embeds the storage operations and handlers as pure
Lean functions over explicit store states, models the relevant SQLite
semantics (`DATE(x)`, the `UNIQUE` constraint on `Users.email`, TEXT vs
INTEGER comparison affinity, `AUTOINCREMENT` id assignment), and proves
the spec's testable properties against them.
-/

namespace FoodDiary

/-! ## Calendar time (Go `time.Time`, restricted to the fields the code reads)

The code formats times with the layouts `"2006-01-02 15:04:05"` (the
`repo.Timestamp` constant) and `"2006-01-02"`, and parses dates with
`time.Parse("2006-01-02", s)`.  Only the wall-clock components matter. -/

structure GoTime where
  year : Nat
  month : Nat
  day : Nat
  hour : Nat
  minute : Nat
  second : Nat
deriving DecidableEq, Repr

/-- The wall-clock component ranges a Go `time.Time` can actually carry
(year restricted to the four-digit range that the `"2006"` layout
zero-pads to). -/
def wfTime (t : GoTime) : Prop :=
  t.year ≤ 9999 ∧ 1 ≤ t.month ∧ t.month ≤ 12 ∧ 1 ≤ t.day ∧ t.day ≤ 31 ∧
    t.hour ≤ 23 ∧ t.minute ≤ 59 ∧ t.second ≤ 59

instance (t : GoTime) : Decidable (wfTime t) := by
  unfold wfTime; infer_instance

/-- Numeric value of a decimal digit character. -/
def charVal (c : Char) : Nat := c.toNat - 48

/-- Decimal digit test (`0`..`9`), stated on code points. -/
def isDig (c : Char) : Bool := 48 ≤ c.toNat && c.toNat ≤ 57

/-- Characters of Go `t.Format("2006-01-02")`: four-digit zero-padded
year, two-digit zero-padded month and day. -/
def goFormatDateChars (t : GoTime) : List Char :=
  [Nat.digitChar (t.year / 1000 % 10), Nat.digitChar (t.year / 100 % 10),
   Nat.digitChar (t.year / 10 % 10), Nat.digitChar (t.year % 10), '-',
   Nat.digitChar (t.month / 10 % 10), Nat.digitChar (t.month % 10), '-',
   Nat.digitChar (t.day / 10 % 10), Nat.digitChar (t.day % 10)]

/-- Go `t.Format("2006-01-02")`. -/
def goFormatDate (t : GoTime) : String := String.mk (goFormatDateChars t)

/-- Characters of Go `t.Format(repo.Timestamp)`, i.e. layout
`"2006-01-02 15:04:05"`. -/
def goFormatTimestampChars (t : GoTime) : List Char :=
  goFormatDateChars t ++
    [' ', Nat.digitChar (t.hour / 10 % 10), Nat.digitChar (t.hour % 10), ':',
     Nat.digitChar (t.minute / 10 % 10), Nat.digitChar (t.minute % 10), ':',
     Nat.digitChar (t.second / 10 % 10), Nat.digitChar (t.second % 10)]

/-- Go `t.Format(repo.Timestamp)` with `repo.Timestamp = "2006-01-02 15:04:05"`. -/
def goFormatTimestamp (t : GoTime) : String := String.mk (goFormatTimestampChars t)

def val2 (a b : Char) : Nat := charVal a * 10 + charVal b

def val4 (a b c d : Char) : Nat :=
  charVal a * 1000 + charVal b * 100 + charVal c * 10 + charVal d

/-- SQLite `DATE(x)` on a TEXT value, returned as the parsed
year-month-day triple (`none` models SQL `NULL` for a malformed value).
SQLite accepts the `YYYY-MM-DD` and `YYYY-MM-DD HH:MM:SS` forms with
month `01`-`12` and day `01`-`31`. -/
def sqliteDateChars : List Char → Option (Nat × Nat × Nat)
  | [y1, y2, y3, y4, s1, m1, m2, s2, d1, d2] =>
    if isDig y1 && isDig y2 && isDig y3 && isDig y4 && s1 == '-' &&
        isDig m1 && isDig m2 && s2 == '-' && isDig d1 && isDig d2 then
      let y := val4 y1 y2 y3 y4
      let mo := val2 m1 m2
      let d := val2 d1 d2
      if 1 ≤ mo ∧ mo ≤ 12 ∧ 1 ≤ d ∧ d ≤ 31 then some (y, mo, d) else none
    else none
  | [y1, y2, y3, y4, s1, m1, m2, s2, d1, d2, sp, h1, h2, c1, n1, n2, c2, e1, e2] =>
    if isDig y1 && isDig y2 && isDig y3 && isDig y4 && s1 == '-' &&
        isDig m1 && isDig m2 && s2 == '-' && isDig d1 && isDig d2 &&
        sp == ' ' && isDig h1 && isDig h2 && c1 == ':' && isDig n1 && isDig n2 &&
        c2 == ':' && isDig e1 && isDig e2 then
      let y := val4 y1 y2 y3 y4
      let mo := val2 m1 m2
      let d := val2 d1 d2
      let h := val2 h1 h2
      let n := val2 n1 n2
      let e := val2 e1 e2
      if 1 ≤ mo ∧ mo ≤ 12 ∧ 1 ≤ d ∧ d ≤ 31 ∧ h ≤ 24 ∧ n ≤ 59 ∧ e ≤ 59 then
        some (y, mo, d)
      else none
    else none
  | _ => none

/-- SQLite `DATE(x)` on a TEXT value. -/
def sqliteDate (s : String) : Option (Nat × Nat × Nat) := sqliteDateChars s.data

/-- The SQL predicate `DATE(a) = DATE(b)`: SQL `NULL` (a malformed
operand) makes the comparison not-true. -/
def sqlSameDate (a b : String) : Bool :=
  match sqliteDate a, sqliteDate b with
  | some x, some y => x == y
  | _, _ => false

theorem isDig_digitChar {d : Nat} (h : d < 10) : isDig (Nat.digitChar d) = true := by
  interval_cases d <;> decide

theorem charVal_digitChar {d : Nat} (h : d < 10) : charVal (Nat.digitChar d) = d := by
  interval_cases d <;> decide

theorem val2_digits (n : Nat) (h : n ≤ 99) :
    val2 (Nat.digitChar (n / 10 % 10)) (Nat.digitChar (n % 10)) = n := by
  rw [val2, charVal_digitChar (by omega), charVal_digitChar (by omega)]
  omega

theorem val4_digits (n : Nat) (h : n ≤ 9999) :
    val4 (Nat.digitChar (n / 1000 % 10)) (Nat.digitChar (n / 100 % 10))
      (Nat.digitChar (n / 10 % 10)) (Nat.digitChar (n % 10)) = n := by
  rw [val4, charVal_digitChar (by omega), charVal_digitChar (by omega),
    charVal_digitChar (by omega), charVal_digitChar (by omega)]
  omega

/-- `DATE` applied to a Go-formatted date string recovers the calendar day. -/
theorem sqliteDate_goFormatDate (t : GoTime) (h : wfTime t) :
    sqliteDate (goFormatDate t) = some (t.year, t.month, t.day) := by
  obtain ⟨hy, hm1, hm2, hd1, hd2, -, -, -⟩ := h
  show sqliteDateChars (goFormatDateChars t) = _
  rw [goFormatDateChars, sqliteDateChars]
  rw [isDig_digitChar (by omega), isDig_digitChar (by omega),
    isDig_digitChar (by omega), isDig_digitChar (by omega),
    isDig_digitChar (by omega), isDig_digitChar (by omega),
    isDig_digitChar (by omega), isDig_digitChar (by omega)]
  simp only [Bool.true_and, Bool.and_true, beq_self_eq_true, if_true]
  rw [val4_digits _ (by omega), val2_digits _ (by omega), val2_digits _ (by omega)]
  rw [if_pos (by omega)]

/-- `DATE` applied to a Go-formatted timestamp string recovers the
calendar day, discarding the time of day. -/
theorem sqliteDate_goFormatTimestamp (t : GoTime) (h : wfTime t) :
    sqliteDate (goFormatTimestamp t) = some (t.year, t.month, t.day) := by
  obtain ⟨hy, hm1, hm2, hd1, hd2, hh, hn, he⟩ := h
  show sqliteDateChars (goFormatTimestampChars t) = _
  rw [goFormatTimestampChars, goFormatDateChars]
  show sqliteDateChars [_, _, _, _, _, _, _, _, _, _, _, _, _, _, _, _, _, _, _] = _
  rw [sqliteDateChars]
  rw [isDig_digitChar (by omega), isDig_digitChar (by omega),
    isDig_digitChar (by omega), isDig_digitChar (by omega),
    isDig_digitChar (by omega), isDig_digitChar (by omega),
    isDig_digitChar (by omega), isDig_digitChar (by omega),
    isDig_digitChar (by omega), isDig_digitChar (by omega),
    isDig_digitChar (by omega), isDig_digitChar (by omega),
    isDig_digitChar (by omega), isDig_digitChar (by omega)]
  simp only [Bool.true_and, Bool.and_true, beq_self_eq_true, if_true]
  rw [val4_digits _ (by omega), val2_digits _ (by omega), val2_digits _ (by omega),
    val2_digits _ (by omega), val2_digits _ (by omega), val2_digits _ (by omega)]
  rw [if_pos (by omega)]

/-- The stored-timestamp/query-date comparison performed by
`GetMealsByUserAndDate` succeeds exactly on equal calendar days. -/
theorem sqlSameDate_format (t u : GoTime) (ht : wfTime t) (hu : wfTime u) :
    sqlSameDate (goFormatTimestamp t) (goFormatDate u) =
      ((t.year, t.month, t.day) == (u.year, u.month, u.day)) := by
  rw [sqlSameDate, sqliteDate_goFormatTimestamp t ht, sqliteDate_goFormatDate u hu]

/-! ## Data model and storage layer (`repo` package)

`repo.Meal` and `repo.User` as in the current schema (`Meals` with a
`user_id` column, `Users` with a `UNIQUE` email).  The SQLite database
is modelled as the list of rows plus the next id the `AUTOINCREMENT` /
rowid mechanism will hand out; `LastInsertId` is that id.  Database I/O
failures (connection loss, disk errors) are outside the model, so the
operations below fail only where SQLite's own semantics make them fail. -/

structure Meal where
  id : Int
  user_id : Int
  name : String
  meal_type : String
  date_consumed : String
deriving DecidableEq, Repr

structure User where
  Id : Int
  Email : String
  Password : String
deriving DecidableEq, Repr

structure MealStore where
  meals : List Meal
  nextId : Int
deriving DecidableEq, Repr

structure UserStore where
  users : List User
  nextId : Int
deriving DecidableEq, Repr

/-- Errors surfaced by the modelled SQLite driver: the extended result
code 2067 (`SQLITE_CONSTRAINT_UNIQUE`, checked for by `handleRegister`)
and `sql.ErrNoRows` (returned by `db.Get` on an empty result). -/
inductive SqlError where
  | uniqueViolation
  | noRows
deriving DecidableEq, Repr

/-- The four `repo.MealType` constants. -/
def Breakfast : String := "breakfast"
def Lunch : String := "lunch"
def Dinner : String := "dinner"
def Snacks : String := "snacks"

/-- `repo.NewMeal`: the `Id` field is left at its zero value; the
insert assigns the real id. -/
def NewMeal (name : String) (userId : Int) (mealType : String) (t : GoTime) : Meal :=
  { id := 0, user_id := userId, name := name, meal_type := mealType,
    date_consumed := goFormatTimestamp t }

/-- `repo.InsertMeal`: `INSERT INTO Meals(name, user_id, meal_type,
date_consumed) VALUES (...)`; the returned meal carries
`LastInsertId`. -/
def InsertMeal (st : MealStore) (meal : Meal) : Meal × MealStore :=
  let m := { meal with id := st.nextId }
  (m, { meals := st.meals ++ [m], nextId := st.nextId + 1 })

/-- `repo.GetAllMeals`: `SELECT * FROM Meals`. -/
def GetAllMeals (st : MealStore) : List Meal := st.meals

/-- `repo.GetMealsByUserAndDate`: `SELECT * FROM Meals WHERE user_id = ?
AND DATE(date_consumed) = DATE(?)` with the second parameter
`inTime.Format("2006-01-02")`. -/
def GetMealsByUserAndDate (st : MealStore) (user : User) (inTime : GoTime) : List Meal :=
  st.meals.filter fun m =>
    m.user_id == user.Id && sqlSameDate m.date_consumed (goFormatDate inTime)

/-- `sqlite3Isspace`: the six ASCII whitespace characters SQLite strips
around numeric text. -/
def isSqlSpace (c : Char) : Bool :=
  c == ' ' || c == '\t' || c == '\n' || c == '\x0b' || c == '\x0c' || c == '\r'

def dropSpaces : List Char → List Char
  | [] => []
  | c :: cs => if isSqlSpace c then dropSpaces cs else c :: cs

def digitsToNat (ds : List Char) : Nat :=
  ds.foldl (fun a c => a * 10 + charVal c) 0

def parseExpTail (neg : Bool) (i : Nat) (frac : Nat) (cs : List Char) :
    Option (Bool × Nat × Int) :=
  let (eneg, cs) :=
    match cs with
    | '-' :: r => (true, r)
    | '+' :: r => (false, r)
    | r => (false, r)
  let (eds, cs) := cs.span isDig
  if eds.length == 0 then none
  else if (dropSpaces cs).isEmpty then
    some (neg, i,
      (if eneg then -(digitsToNat eds : Int) else (digitsToNat eds : Int)) - (frac : Int))
  else none

/-- A well-formed numeric literal as `sqlite3AtoF` accepts it for type
conversions: optional surrounding whitespace, an optional `+`/`-` sign,
decimal digits with an optional fractional part, and an optional signed
exponent; at least one significand digit; the whole string consumed.
(Hexadecimal literals are not well-formed for conversions.)  Returns
the sign, the significand digits as a number `i`, and the decimal scale
`e`, so the literal's exact value is `± i * 10 ^ e`. -/
def parseNumLit (s : String) : Option (Bool × Nat × Int) :=
  let cs := dropSpaces s.data
  let (neg, cs) :=
    match cs with
    | '-' :: r => (true, r)
    | '+' :: r => (false, r)
    | r => (false, r)
  let (ds1, cs) := cs.span isDig
  let (ds2, cs) :=
    match cs with
    | '.' :: r => r.span isDig
    | r => (([] : List Char), r)
  if ds1.length + ds2.length == 0 then none
  else
    match cs with
    | 'e' :: r => parseExpTail neg (digitsToNat (ds1 ++ ds2)) ds2.length r
    | 'E' :: r => parseExpTail neg (digitsToNat (ds1 ++ ds2)) ds2.length r
    | r =>
      if (dropSpaces r).isEmpty then
        some (neg, digitsToNat (ds1 ++ ds2), -(ds2.length : Int))
      else none

/-- The exact integer value of a parsed literal `± i * 10 ^ e`, when
that exact decimal value is an integer. -/
def litToInt (neg : Bool) (i : Nat) (e : Int) : Option Int :=
  if 0 ≤ e then
    some ((if neg then -1 else 1) * (i : Int) * (10 : Int) ^ e.toNat)
  else if i % 10 ^ (-e).toNat == 0 then
    some ((if neg then -1 else 1) * ((i / 10 ^ (-e).toNat : Nat) : Int))
  else none

/-- SQLite's NUMERIC affinity applied to a TEXT operand compared
against an INTEGER column: a well-formed numeric literal converts to a
number and matches an integer id exactly when its value is that
integer (so `'3'`, `'+3'`, `' 3 '`, `'3.0'` and `'30e-1'` all match id
3); any other text stays TEXT and never equals an INTEGER value.
Literals are evaluated at their exact decimal value; the binary64
rounding SQLite applies to non-integer text (observable only past
the 15th significant digit or outside the int64 id range) is
floating-point behavior outside this embedding. -/
def sqliteTextToInt (s : String) : Option Int :=
  match parseNumLit s with
  | some (neg, i, e) => litToInt neg i e
  | none => none

/-- The SQL predicate `id = ?` where `id` is an INTEGER column and the
parameter is the Go string `s`. -/
def textMatchesInt (s : String) (i : Int) : Bool :=
  match sqliteTextToInt s with
  | some v => v == i
  | none => false

/-- `repo.DeleteMealByUserAndId`: `DELETE FROM Meals WHERE user_id = ?
AND id = ?`.  The function then calls `res.LastInsertId()`, which never
fails on this driver, so a delete matching no rows still returns a nil
error. -/
def DeleteMealByUserAndId (st : MealStore) (user : User) (id : String) :
    MealStore × Option String :=
  ({ st with
      meals := st.meals.filter fun m => !(m.user_id == user.Id && textMatchesInt id m.id) },
    none)

/-- `repo.NewUser`. -/
def NewUser (email password : String) : User :=
  { Id := 0, Email := email, Password := password }

/-- `repo.InsertUser`: `INSERT INTO Users (email, password) VALUES
(...)` against the schema `email TEXT NOT NULL UNIQUE`; a duplicate
email violates the unique constraint, adds no row, and surfaces as
SQLite error code 2067. -/
def InsertUser (st : UserStore) (user : User) : Except SqlError (User × UserStore) :=
  if st.users.any fun u => u.Email == user.Email then
    .error .uniqueViolation
  else
    let u := { user with Id := st.nextId }
    .ok (u, { users := st.users ++ [u], nextId := st.nextId + 1 })

/-- `repo.GetUserByEmail`: `SELECT * FROM Users WHERE email = ?` via
`db.Get`, which returns `sql.ErrNoRows` on an empty result. -/
def GetUserByEmail (st : UserStore) (email : String) : Except SqlError User :=
  match st.users.find? fun u => u.Email == email with
  | some u => .ok u
  | none => .error .noRows

/-! ## Session resolver (`server.GetUserId`)

The gorilla session's `Values` map holds `interface{}` values; the code
only ever distinguishes "an `int64`" from "anything else" via a type
assertion, so the dynamic value is modelled by that dichotomy.  Cookie
encryption/decoding is delegated to the library and not modelled: a
handler receives the already-decoded session. -/

inductive SessionValue where
  | int64 (v : Int)
  | other (tag : String)
deriving DecidableEq, Repr

structure Session where
  values : List (String × SessionValue)
deriving DecidableEq, Repr

def Session.get (s : Session) (k : String) : Option SessionValue :=
  (s.values.find? fun p => p.1 == k).map fun p => p.2

def Session.set (s : Session) (k : String) (v : SessionValue) : Session :=
  ⟨(k, v) :: s.values.filter fun p => !(p.1 == k)⟩

/-- `server.GetUserId`: type-asserts `session.Values["userId"].(int64)`,
returning `(0, error)` when the assertion fails. -/
def GetUserId (s : Session) : Int × Option String :=
  match Session.get s "userId" with
  | some (.int64 v) => (v, none)
  | _ => (0, some "Error! Could not get user id from session")

/-! ## Go `time.Parse("2006-01-02", s)`

The layout's `2006`, `01`, `02` elements each demand exactly four resp.
two digits; Go then range-checks the month and the day against the
month's length. -/

def isLeap (y : Nat) : Bool := y % 4 == 0 && (y % 100 != 0 || y % 400 == 0)

def daysIn (y mo : Nat) : Nat :=
  if mo == 2 then (if isLeap y then 29 else 28)
  else if mo == 4 || mo == 6 || mo == 9 || mo == 11 then 30
  else 31

def goParseDate (s : String) : Option GoTime :=
  match s.data with
  | [y1, y2, y3, y4, s1, m1, m2, s2, d1, d2] =>
    if isDig y1 && isDig y2 && isDig y3 && isDig y4 && s1 == '-' &&
        isDig m1 && isDig m2 && s2 == '-' && isDig d1 && isDig d2 then
      if 1 ≤ val2 m1 m2 ∧ val2 m1 m2 ≤ 12 ∧ 1 ≤ val2 d1 d2 ∧
          val2 d1 d2 ≤ daysIn (val4 y1 y2 y3 y4) (val2 m1 m2) then
        some { year := val4 y1 y2 y3 y4, month := val2 m1 m2, day := val2 d1 d2,
               hour := 0, minute := 0, second := 0 }
      else none
    else none
  | _ => none

/-! ## HTTP handlers (`server` package)

Each handler is a function of its request data (decoded session, parsed
form or query parameters, URL parameter) and the current store, to a
response and — for mutating handlers — the new store.  Template
execution is abstracted to a `renderMeals`/`renderMessage` constructor
carrying the view data the Go code passes to the template. -/

inductive Response where
  | redirect (location : String) (status : Nat)
  | badRequest (msg : String)
  | serverError (msg : String)
  | renderMeals (meals : List Meal)
  | renderMessage (errorMessage : String)
  | hxRedirect (location : String)
deriving DecidableEq, Repr

/-- `r.Form.Get(k)`: empty string when the field is absent. -/
def formGet (form : List (String × String)) (k : String) : String :=
  match form.find? fun p => p.1 == k with
  | some p => p.2
  | none => ""

/-- The form scan in `handleMeals`: the first of the four meal-type
fields with a non-empty value wins; `FormData`'s zero value stands when
none does. -/
def selectFormMeal (form : List (String × String)) : String × String :=
  match [Breakfast, Lunch, Dinner, Snacks].find? fun mt => formGet form mt != "" with
  | some mt => (formGet form mt, mt)
  | none => ("", "")

/-- `server.handleMeals` (POST `/api/meals`): resolve the session,
scan the form, insert the meal stamped with the current time, redirect
to `/today`. -/
def handleMeals (s : Session) (form : List (String × String)) (now : GoTime)
    (st : MealStore) : Response × MealStore :=
  match GetUserId s with
  | (_, some e) => (.serverError e, st)
  | (userId, none) =>
    let sel := selectFormMeal form
    if sel.1 = "" then
      (.badRequest "Error, recieved an empty form submission!", st)
    else
      let ins := InsertMeal st (NewMeal sel.1 userId sel.2 now)
      (.redirect "/today" 303, ins.2)

/-- `server.handleHistory` (GET `/history`): with a `date` query
parameter the view is the user's meals on that day; without one it is
`GetAllMeals`, unscoped. -/
def handleHistory (s : Session) (dateStr : String) (st : MealStore) : Response :=
  match GetUserId s with
  | (_, some _) => .redirect "/login" 401
  | (userId, none) =>
    if dateStr ≠ "" then
      match goParseDate dateStr with
      | none => .badRequest "Invalid date format"
      | some date =>
        .renderMeals (GetMealsByUserAndDate st { Id := userId, Email := "", Password := "" } date)
    else
      .renderMeals (GetAllMeals st)

/-- `server.handleDeleteMeal` (DELETE `/api/meals/{id}`). -/
def handleDeleteMeal (s : Session) (id : String) (st : MealStore) :
    Response × MealStore :=
  match GetUserId s with
  | (_, some e) => (.serverError e, st)
  | (userId, none) =>
    let del := DeleteMealByUserAndId st { Id := userId, Email := "", Password := "" } id
    match del.2 with
    | some e => (.serverError e, del.1)
    | none => (.hxRedirect "/today", del.1)

/-- The POST branch of `server.handleLogin`.  `bcryptCompare h p` models
`bcrypt.CompareHashAndPassword([]byte(h), []byte(p)) == nil`; the hash
comparison itself is delegated to the library.  Returns the response
and the session as saved. -/
def handleLoginPost (bcryptCompare : String → String → Bool) (s : Session)
    (ust : UserStore) (form : List (String × String)) : Response × Session :=
  let emailStr := formGet form "email"
  let passwordStr := formGet form "password"
  match GetUserByEmail ust emailStr with
  | .error _ => (.renderMessage "Invalid email or password", s)
  | .ok user =>
    if bcryptCompare user.Password passwordStr then
      (.redirect "/today" 303, Session.set s "userId" (.int64 user.Id))
    else
      (.renderMessage "Invalid email or password", s)

/-- Meal-store states producible by the mutating meal handlers, from an
empty `Meals` table (SQLite hands out rowid 1 first). -/
inductive Reachable : MealStore → Prop where
  | init : Reachable { meals := [], nextId := 1 }
  | postMeal (s : Session) (form : List (String × String)) (now : GoTime)
      (st : MealStore) (h : Reachable st) : Reachable (handleMeals s form now st).2
  | deleteMeal (s : Session) (id : String) (st : MealStore) (h : Reachable st) :
      Reachable (handleDeleteMeal s id st).2

/-! ## Helper lemmas -/

theorem charVal_le_of_isDig {c : Char} (h : isDig c = true) : charVal c ≤ 9 := by
  rw [isDig, Bool.and_eq_true, decide_eq_true_eq, decide_eq_true_eq] at h
  rw [charVal]
  omega

theorem daysIn_le (y mo : Nat) : daysIn y mo ≤ 31 := by
  rw [daysIn]
  split
  · split <;> omega
  · split <;> omega

/-- A date accepted by `time.Parse("2006-01-02", ·)` is a well-formed
wall-clock time. -/
theorem goParseDate_wf {s : String} {t : GoTime} (h : goParseDate s = some t) :
    wfTime t := by
  rw [goParseDate] at h
  split at h
  case h_2 => exact absurd h (by simp)
  case h_1 y1 y2 y3 y4 s1 m1 m2 s2 d1 d2 =>
    split at h
    case isFalse => exact absurd h (by simp)
    case isTrue hdig =>
      split at h
      case isFalse => exact absurd h (by simp)
      case isTrue hrange =>
        simp only [Option.some.injEq] at h
        subst h
        simp only [Bool.and_eq_true] at hdig
        obtain ⟨⟨⟨⟨⟨⟨⟨⟨⟨hy1, hy2⟩, hy3⟩, hy4⟩, -⟩, hm1⟩, hm2⟩, -⟩, hd1⟩, hd2⟩ := hdig
        have b1 := charVal_le_of_isDig hy1
        have b2 := charVal_le_of_isDig hy2
        have b3 := charVal_le_of_isDig hy3
        have b4 := charVal_le_of_isDig hy4
        have hd := (hrange.2.2.2).trans (daysIn_le _ _)
        rw [wfTime]
        dsimp only
        refine ⟨?_, hrange.1, hrange.2.1, hrange.2.2.1, hd, by omega, by omega, by omega⟩
        rw [val4]
        omega

theorem sqlSameDate_right_format (a : String) (t : GoTime) (h : wfTime t) :
    (sqlSameDate a (goFormatDate t) = true) ↔
      sqliteDate a = some (t.year, t.month, t.day) := by
  rw [sqlSameDate, sqliteDate_goFormatDate t h]
  cases sqliteDate a with
  | none => simp
  | some x => simp

/-! ## C1: insert then fetch by the same user and date -/

/-- C1: a meal built by `NewMeal` for user `u` from time `t` and stored via
`InsertMeal` appears in a subsequent `GetMealsByUserAndDate` for `u`
and `t`, carrying the id assigned at insert. -/
theorem insert_then_fetch (st : MealStore) (u : User) (nm mt : String)
    (t : GoTime) (hwf : wfTime t) :
    (InsertMeal st (NewMeal nm u.Id mt t)).1 ∈
      GetMealsByUserAndDate (InsertMeal st (NewMeal nm u.Id mt t)).2 u t ∧
    (InsertMeal st (NewMeal nm u.Id mt t)).1.id = st.nextId := by
  refine ⟨?_, rfl⟩
  rw [GetMealsByUserAndDate, List.mem_filter]
  refine ⟨by simp [InsertMeal], ?_⟩
  rw [Bool.and_eq_true]
  refine ⟨by simp [InsertMeal, NewMeal], ?_⟩
  show sqlSameDate (goFormatTimestamp t) (goFormatDate t) = true
  rw [sqlSameDate, sqliteDate_goFormatTimestamp t hwf, sqliteDate_goFormatDate t hwf]
  simp

theorem insert_then_fetch_witness :
    wfTime ⟨2024, 5, 1, 12, 30, 5⟩ ∧
    ((InsertMeal ⟨[], 1⟩ (NewMeal "eggs" (User.mk 1 "a@b.c" "h").Id Breakfast
        ⟨2024, 5, 1, 12, 30, 5⟩)).1 ∈
      GetMealsByUserAndDate
        (InsertMeal ⟨[], 1⟩ (NewMeal "eggs" (User.mk 1 "a@b.c" "h").Id Breakfast
          ⟨2024, 5, 1, 12, 30, 5⟩)).2 (User.mk 1 "a@b.c" "h") ⟨2024, 5, 1, 12, 30, 5⟩ ∧
    (InsertMeal ⟨[], 1⟩ (NewMeal "eggs" (User.mk 1 "a@b.c" "h").Id Breakfast
        ⟨2024, 5, 1, 12, 30, 5⟩)).1.id = (1 : Int)) :=
  ⟨by decide, insert_then_fetch ⟨[], 1⟩ (User.mk 1 "a@b.c" "h") "eggs" Breakfast
    ⟨2024, 5, 1, 12, 30, 5⟩ (by decide)⟩

/-! ## C2: delete removes the meal from fetch-all -/

/-- C2: deleting a stored meal by its owner and id removes it: no meal
with that id remains in `GetAllMeals`, and the delete reports no error.
The uniqueness hypothesis is the `Meals` primary-key invariant. -/
theorem delete_removes (st : MealStore) (m : Meal) (u : User) (idStr : String)
    (hm : m ∈ st.meals) (hu : u.Id = m.user_id)
    (hid : sqliteTextToInt idStr = some m.id)
    (huniq : ∀ m₂ ∈ st.meals, m₂.id = m.id → m₂ = m) :
    (DeleteMealByUserAndId st u idStr).2 = none ∧
    ∀ m₂ ∈ GetAllMeals (DeleteMealByUserAndId st u idStr).1, m₂.id ≠ m.id := by
  refine ⟨rfl, ?_⟩
  intro m₂ hm₂ heq
  have hmem : m₂ ∈ st.meals.filter
      (fun x => !(x.user_id == u.Id && textMatchesInt idStr x.id)) := hm₂
  rw [List.mem_filter] at hmem
  obtain ⟨hmem₂, hp⟩ := hmem
  have hEq : m₂ = m := huniq m₂ hmem₂ heq
  subst hEq
  rw [textMatchesInt, hid] at hp
  simp [hu] at hp

theorem delete_removes_witness :
    (⟨3, 7, "toast", "breakfast", "2024-05-01 08:00:00"⟩ : Meal) ∈
      ([⟨3, 7, "toast", "breakfast", "2024-05-01 08:00:00"⟩] : List Meal) ∧
    (DeleteMealByUserAndId ⟨[⟨3, 7, "toast", "breakfast", "2024-05-01 08:00:00"⟩], 4⟩
      (User.mk 7 "" "") "3").2 = none ∧
    ∀ m₂ ∈ GetAllMeals (DeleteMealByUserAndId
        ⟨[⟨3, 7, "toast", "breakfast", "2024-05-01 08:00:00"⟩], 4⟩
        (User.mk 7 "" "") "3").1, m₂.id ≠ 3 :=
  ⟨by decide,
    delete_removes ⟨[⟨3, 7, "toast", "breakfast", "2024-05-01 08:00:00"⟩], 4⟩
      ⟨3, 7, "toast", "breakfast", "2024-05-01 08:00:00"⟩ (User.mk 7 "" "") "3"
      (by decide) (by decide) (by decide) (by decide)⟩

/-! ## C3: duplicate email registration fails -/

/-- C3: with no user under the email yet, the first `InsertUser`
succeeds; a second insert with the same email hits the `UNIQUE`
constraint (SQLite code 2067), adds no row, and the store keeps exactly
one user with that email. -/
theorem duplicate_email_rejected (st : UserStore) (u1 u2 : User)
    (he : u2.Email = u1.Email) (h0 : ∀ u ∈ st.users, u.Email ≠ u1.Email) :
    ∃ r1 st1, InsertUser st u1 = .ok (r1, st1) ∧
      InsertUser st1 u2 = .error .uniqueViolation ∧
      (st1.users.filter fun u => u.Email == u1.Email).length = 1 := by
  have hany : (st.users.any fun u => u.Email == u1.Email) = false := by
    rw [← Bool.not_eq_true, List.any_eq_true]
    rintro ⟨u, hu, hbe⟩
    exact h0 u hu (by simpa using hbe)
  refine ⟨{ u1 with Id := st.nextId },
    ⟨st.users ++ [{ u1 with Id := st.nextId }], st.nextId + 1⟩, ?_, ?_, ?_⟩
  · rw [InsertUser, hany]
    rfl
  · rw [InsertUser]
    have : (((st.users ++ [{ u1 with Id := st.nextId }]).any
        fun u => u.Email == u2.Email)) = true := by
      rw [List.any_eq_true]
      exact ⟨{ u1 with Id := st.nextId }, by simp, by simp [he]⟩
    rw [this]
    rfl
  · rw [List.filter_append, List.length_append]
    have h1 : (st.users.filter fun u => u.Email == u1.Email) = [] := by
      rw [List.filter_eq_nil_iff]
      intro u hu
      simpa using h0 u hu
    rw [h1]
    simp

theorem duplicate_email_rejected_witness :
    ("b@b.c" : String) = "b@b.c" ∧
    (∀ u ∈ ([] : List User), u.Email ≠ "b@b.c") ∧
    ∃ r1 st1, InsertUser ⟨[], 1⟩ (NewUser "b@b.c" "h1") = .ok (r1, st1) ∧
      InsertUser st1 (NewUser "b@b.c" "h2") = .error .uniqueViolation ∧
      (st1.users.filter fun u => u.Email == (NewUser "b@b.c" "h1").Email).length = 1 :=
  ⟨rfl, by simp,
    duplicate_email_rejected ⟨[], 1⟩ (NewUser "b@b.c" "h1") (NewUser "b@b.c" "h2")
      rfl (by simp)⟩

/-! ## C4: date queries compare by calendar day -/

/-- C4: `GetMealsByUserAndDate` returns exactly the stored meals of `u`
whose `date_consumed` falls on the calendar day of `t`: membership is
the stored-row day (as SQLite's `DATE` reads it) equalling `t`'s day;
for a row stamped from a wall-clock time `tm` that is exactly equality
of the year-month-day triples, independent of either time of day; and
the result depends on `t` only through its year, month and day. -/
theorem fetch_by_day (st : MealStore) (u : User) (t : GoTime) (hwf : wfTime t)
    (m : Meal) :
    (m ∈ GetMealsByUserAndDate st u t ↔
      m ∈ st.meals ∧ m.user_id = u.Id ∧
        sqliteDate m.date_consumed = some (t.year, t.month, t.day)) ∧
    (∀ tm : GoTime, wfTime tm → m.date_consumed = goFormatTimestamp tm →
      (m ∈ GetMealsByUserAndDate st u t ↔
        m ∈ st.meals ∧ m.user_id = u.Id ∧
          (tm.year, tm.month, tm.day) = (t.year, t.month, t.day))) ∧
    (∀ t₂ : GoTime, t₂.year = t.year → t₂.month = t.month → t₂.day = t.day →
      GetMealsByUserAndDate st u t₂ = GetMealsByUserAndDate st u t) := by
  have hmain : m ∈ GetMealsByUserAndDate st u t ↔
      m ∈ st.meals ∧ m.user_id = u.Id ∧
        sqliteDate m.date_consumed = some (t.year, t.month, t.day) := by
    rw [GetMealsByUserAndDate, List.mem_filter, Bool.and_eq_true, beq_iff_eq,
      sqlSameDate_right_format _ t hwf]
  refine ⟨hmain, ?_, ?_⟩
  · intro tm hwtm hdc
    rw [hmain, hdc, sqliteDate_goFormatTimestamp tm hwtm]
    simp only [Option.some.injEq]
  · intro t₂ hy hmo hd
    rw [GetMealsByUserAndDate, GetMealsByUserAndDate]
    have : goFormatDate t₂ = goFormatDate t := by
      rw [goFormatDate, goFormatDate, goFormatDateChars, goFormatDateChars,
        hy, hmo, hd]
    rw [this]

theorem fetch_by_day_witness :
    wfTime ⟨2024, 5, 1, 23, 59, 59⟩ ∧
    ((⟨1, 4, "pie", "snacks", "2024-05-01 00:00:01"⟩ : Meal) ∈
        GetMealsByUserAndDate ⟨[⟨1, 4, "pie", "snacks", "2024-05-01 00:00:01"⟩], 2⟩
          (User.mk 4 "" "") ⟨2024, 5, 1, 23, 59, 59⟩ ↔
      (⟨1, 4, "pie", "snacks", "2024-05-01 00:00:01"⟩ : Meal) ∈
          ([⟨1, 4, "pie", "snacks", "2024-05-01 00:00:01"⟩] : List Meal) ∧
        (4 : Int) = (4 : Int) ∧
        sqliteDate "2024-05-01 00:00:01" = some (2024, 5, 1)) :=
  ⟨by decide,
    (fetch_by_day ⟨[⟨1, 4, "pie", "snacks", "2024-05-01 00:00:01"⟩], 2⟩
      (User.mk 4 "" "") ⟨2024, 5, 1, 23, 59, 59⟩ (by decide)
      ⟨1, 4, "pie", "snacks", "2024-05-01 00:00:01"⟩).1⟩

/-! ## C6: session user-id extraction -/

/-- C6: `GetUserId` returns the id stored as an `int64` under the
session key `"userId"`, and returns id `0` with an error exactly when
that value is absent or of another dynamic type. -/
theorem getUserId_spec (s : Session) :
    (∀ v : Int, Session.get s "userId" = some (.int64 v) → GetUserId s = (v, none)) ∧
    ((∀ v : Int, Session.get s "userId" ≠ some (.int64 v)) →
      GetUserId s = (0, some "Error! Could not get user id from session")) := by
  constructor
  · intro v hv
    rw [GetUserId, hv]
  · intro h
    rw [GetUserId]
    cases hg : Session.get s "userId" with
    | none => rfl
    | some sv =>
      cases sv with
      | int64 v => exact absurd hg (h v)
      | other tag => rfl

theorem getUserId_spec_witness :
    Session.get ⟨[("userId", .int64 7)]⟩ "userId" = some (.int64 7) ∧
    GetUserId ⟨[("userId", .int64 7)]⟩ = (7, none) :=
  ⟨rfl, (getUserId_spec ⟨[("userId", .int64 7)]⟩).1 7 rfl⟩

/-! ## C7: a day with no meals gives an empty page, not an error -/

/-- C7: for an authenticated session and a parseable date on which the
user has no stored meals, `GetMealsByUserAndDate` returns the empty
list, and the `/history` handler renders the (empty) page rather than
responding with an error status. -/
theorem history_empty_day (s : Session) (uid : Int)
    (hs : GetUserId s = (uid, none)) (dateStr : String) (hne : dateStr ≠ "")
    (t : GoTime) (hparse : goParseDate dateStr = some t) (st : MealStore)
    (hnone : ∀ m ∈ st.meals, m.user_id = uid →
      sqliteDate m.date_consumed ≠ some (t.year, t.month, t.day)) :
    GetMealsByUserAndDate st ⟨uid, "", ""⟩ t = [] ∧
    handleHistory s dateStr st = .renderMeals [] := by
  have hwf : wfTime t := goParseDate_wf hparse
  have hempty : GetMealsByUserAndDate st ⟨uid, "", ""⟩ t = [] := by
    rw [GetMealsByUserAndDate, List.filter_eq_nil_iff]
    intro m hm
    rw [Bool.and_eq_true, beq_iff_eq, sqlSameDate_right_format _ t hwf]
    rintro ⟨h1, h2⟩
    exact hnone m hm h1 h2
  refine ⟨hempty, ?_⟩
  rw [handleHistory]
  simp only [hs]
  rw [if_pos hne, hparse]
  simp only [hempty]

theorem history_empty_day_witness :
    GetUserId ⟨[("userId", .int64 9)]⟩ = (9, none) ∧
    ("2024-05-02" : String) ≠ "" ∧
    goParseDate "2024-05-02" = some ⟨2024, 5, 2, 0, 0, 0⟩ ∧
    GetMealsByUserAndDate ⟨[⟨1, 9, "pie", "snacks", "2024-05-01 22:00:00"⟩], 2⟩
      ⟨9, "", ""⟩ ⟨2024, 5, 2, 0, 0, 0⟩ = [] ∧
    handleHistory ⟨[("userId", .int64 9)]⟩ "2024-05-02"
      ⟨[⟨1, 9, "pie", "snacks", "2024-05-01 22:00:00"⟩], 2⟩ = .renderMeals [] :=
  ⟨rfl, by decide, by decide,
    history_empty_day ⟨[("userId", .int64 9)]⟩ 9 rfl "2024-05-02" (by decide)
      ⟨2024, 5, 2, 0, 0, 0⟩ (by decide)
      ⟨[⟨1, 9, "pie", "snacks", "2024-05-01 22:00:00"⟩], 2⟩ (by decide)⟩

/-! ## C8: failed login renders an error, sets no session -/

/-- C8: when the bcrypt comparison against the stored hash fails, or no
user has the submitted email, the POST `/login` handler renders the
login page with `"Invalid email or password"` and leaves the session
unchanged (the handler is a total function: no crash). -/
theorem login_failure (bcryptCompare : String → String → Bool) (s : Session)
    (ust : UserStore) (form : List (String × String)) :
    (∀ user : User, GetUserByEmail ust (formGet form "email") = .ok user →
      bcryptCompare user.Password (formGet form "password") = false →
      handleLoginPost bcryptCompare s ust form =
        (.renderMessage "Invalid email or password", s)) ∧
    (GetUserByEmail ust (formGet form "email") = .error .noRows →
      handleLoginPost bcryptCompare s ust form =
        (.renderMessage "Invalid email or password", s)) := by
  constructor
  · intro user hfind hcmp
    rw [handleLoginPost]
    simp only [hfind, hcmp]
    rfl
  · intro hfind
    rw [handleLoginPost]
    simp only [hfind]

theorem login_failure_witness :
    GetUserByEmail ⟨[⟨1, "a@b.c", "storedhash"⟩], 2⟩ (formGet [("email", "a@b.c"),
        ("password", "wrong")] "email") = .ok ⟨1, "a@b.c", "storedhash"⟩ ∧
    handleLoginPost (fun _ _ => false) ⟨[]⟩ ⟨[⟨1, "a@b.c", "storedhash"⟩], 2⟩
        [("email", "a@b.c"), ("password", "wrong")] =
      (.renderMessage "Invalid email or password", ⟨[]⟩) :=
  ⟨rfl,
    (login_failure (fun _ _ => false) ⟨[]⟩ ⟨[⟨1, "a@b.c", "storedhash"⟩], 2⟩
      [("email", "a@b.c"), ("password", "wrong")]).1
      ⟨1, "a@b.c", "storedhash"⟩ rfl rfl⟩

/-! ## C9: the no-date history view is not scoped to the user -/

def c9SessionA : Session := ⟨[("userId", .int64 1)]⟩
def c9SessionB : Session := ⟨[("userId", .int64 2)]⟩
def c9Now : GoTime := ⟨2024, 5, 1, 12, 0, 0⟩
def c9Store0 : MealStore := ⟨[], 1⟩
def c9Store1 : MealStore := (handleMeals c9SessionB [("lunch", "salad")] c9Now c9Store0).2
def c9Meal : Meal := ⟨1, 2, "salad", "lunch", goFormatTimestamp c9Now⟩

/-- C9: a `/history` request without a `date` parameter is served from
the unscoped `GetAllMeals`: user 1's view contains user 2's meal, and
the view changes when user 2 inserts a meal — a two-run
noninterference violation. -/
theorem history_no_date_unscoped :
    (GetUserId c9SessionA).1 = 1 ∧
    handleMeals c9SessionB [("lunch", "salad")] c9Now c9Store0 =
      (.redirect "/today" 303, c9Store1) ∧
    c9Meal.user_id ≠ 1 ∧
    handleHistory c9SessionA "" c9Store1 = .renderMeals [c9Meal] ∧
    handleHistory c9SessionA "" c9Store0 = .renderMeals [] ∧
    handleHistory c9SessionA "" c9Store0 ≠ handleHistory c9SessionA "" c9Store1 := by
  refine ⟨rfl, rfl, by decide, rfl, rfl, by decide⟩

/-! ## C10: deleting a non-matching id is a silent no-op -/

theorem selectFormMeal_snd_mem (form : List (String × String))
    (h : (selectFormMeal form).1 ≠ "") :
    (selectFormMeal form).2 ∈ [Breakfast, Lunch, Dinner, Snacks] := by
  unfold selectFormMeal at h ⊢
  cases hf : [Breakfast, Lunch, Dinner, Snacks].find?
      (fun mt => formGet form mt != "") with
  | none => rw [hf] at h; exact absurd rfl h
  | some mt =>
    exact List.mem_of_find?_eq_some hf

theorem handleMeals_snd_meals (s : Session) (form : List (String × String))
    (now : GoTime) (st : MealStore) :
    (handleMeals s form now st).2.meals = st.meals ∨
    ∃ mt, mt ∈ [Breakfast, Lunch, Dinner, Snacks] ∧
      (handleMeals s form now st).2.meals = st.meals ++
        [{ id := st.nextId, user_id := (GetUserId s).1,
           name := (selectFormMeal form).1, meal_type := mt,
           date_consumed := goFormatTimestamp now }] := by
  rcases hg : GetUserId s with ⟨uid, err⟩
  cases err with
  | some e =>
    left
    simp only [handleMeals, hg]
  | none =>
    by_cases hsel : (selectFormMeal form).1 = ""
    · left
      simp only [handleMeals, hg, if_pos hsel]
    · right
      refine ⟨(selectFormMeal form).2, selectFormMeal_snd_mem form hsel, ?_⟩
      simp only [handleMeals, hg, if_neg hsel, InsertMeal, NewMeal]

theorem handleDeleteMeal_snd_subset (s : Session) (id : String) (st : MealStore) :
    ∀ m ∈ (handleDeleteMeal s id st).2.meals, m ∈ st.meals := by
  intro m hm
  rw [handleDeleteMeal] at hm
  rcases hg : GetUserId s with ⟨uid, err⟩
  rw [hg] at hm
  cases err with
  | some e => exact hm
  | none =>
    have hm₂ : m ∈ st.meals.filter (fun x =>
        !(x.user_id == uid && textMatchesInt id x.id)) := hm
    exact (List.mem_filter.mp hm₂).1

/-- C5: in every store state the meal handlers can produce, each stored
meal's `meal_type` is one of the four enumeration values, because
`handleMeals` only inserts a type drawn from the scanned list of the
four `repo.MealType` constants. -/
theorem meal_type_invariant (st : MealStore) (h : Reachable st) :
    ∀ m ∈ st.meals, m.meal_type = Breakfast ∨ m.meal_type = Lunch ∨
      m.meal_type = Dinner ∨ m.meal_type = Snacks := by
  induction h with
  | init =>
    intro m hm
    exact absurd hm (List.not_mem_nil m)
  | postMeal s form now st h ih =>
    intro m hm
    rcases handleMeals_snd_meals s form now st with heq | ⟨mt, hmt, heq⟩
    · exact ih m (heq ▸ hm)
    · rw [heq, List.mem_append] at hm
      rcases hm with hm | hm
      · exact ih m hm
      · rw [List.mem_singleton] at hm
        subst hm
        simp only [List.mem_cons, List.not_mem_nil, or_false] at hmt
        rcases hmt with h1 | h1 | h1 | h1 <;> simp [h1]
  | deleteMeal s id st h ih =>
    intro m hm
    exact ih m (handleDeleteMeal_snd_subset s id st m hm)

def c5Session : Session := ⟨[("userId", .int64 1)]⟩
def c5Store : MealStore :=
  (handleMeals c5Session [("breakfast", "eggs")] ⟨2024, 5, 1, 8, 0, 0⟩ ⟨[], 1⟩).2

theorem meal_type_invariant_witness :
    (⟨1, 1, "eggs", "breakfast", goFormatTimestamp ⟨2024, 5, 1, 8, 0, 0⟩⟩ : Meal).meal_type
        = Breakfast ∨
      (⟨1, 1, "eggs", "breakfast", goFormatTimestamp ⟨2024, 5, 1, 8, 0, 0⟩⟩ : Meal).meal_type
        = Lunch ∨
      (⟨1, 1, "eggs", "breakfast", goFormatTimestamp ⟨2024, 5, 1, 8, 0, 0⟩⟩ : Meal).meal_type
        = Dinner ∨
      (⟨1, 1, "eggs", "breakfast", goFormatTimestamp ⟨2024, 5, 1, 8, 0, 0⟩⟩ : Meal).meal_type
        = Snacks :=
  meal_type_invariant c5Store
    (.postMeal c5Session [("breakfast", "eggs")] ⟨2024, 5, 1, 8, 0, 0⟩ ⟨[], 1⟩ .init)
    ⟨1, 1, "eggs", "breakfast", goFormatTimestamp ⟨2024, 5, 1, 8, 0, 0⟩⟩ (by decide)

end FoodDiary
